import Mathlib

/-!
# Verification of the buildly-core data-mesh join engine

Shallow embedding of `src/datamesh/utils.py` and `src/datamesh/handle_request.py`
(the join-record store and the mesh orchestrator), together with theorems that
settle the frozen claims about them.

Conventions:
* Python values flowing through the orchestrator (PK values, dict entries,
  session data) are modelled by `PyVal`; `PyVal.none` is Python `None`.
* Python dicts are association lists (`Dict`) preserving insertion order, as
  CPython dicts do.
* The Django tables behind `JoinRecord.objects` / `Relationship.objects` are
  modelled by a `DB` record: the list of `Relationship` keys and the list of
  `JoinRecord` rows.  A SQL `NULL` column is `PyVal.none` (for value columns)
  or `Option.none` (for the `relationship` foreign key).
-/

/-- A Python runtime value as it appears in the datamesh request paths:
`None`, strings, ints, bools and lists. -/
inductive PyVal where
  | none : PyVal
  | str (s : String) : PyVal
  | int (n : Int) : PyVal
  | bool (b : Bool) : PyVal
  | list (xs : List PyVal) : PyVal

mutual

/-- Decidable equality of Python values (the derive handler does not support
the nested `List PyVal` occurrence, so it is spelled out). -/
def PyVal.decEq : (a b : PyVal) → Decidable (a = b)
  | PyVal.none, PyVal.none => isTrue rfl
  | PyVal.str a, PyVal.str b =>
      if h : a = b then isTrue (congrArg PyVal.str h)
      else isFalse (fun hh => h (PyVal.str.inj hh))
  | PyVal.int a, PyVal.int b =>
      if h : a = b then isTrue (congrArg PyVal.int h)
      else isFalse (fun hh => h (PyVal.int.inj hh))
  | PyVal.bool a, PyVal.bool b =>
      if h : a = b then isTrue (congrArg PyVal.bool h)
      else isFalse (fun hh => h (PyVal.bool.inj hh))
  | PyVal.list a, PyVal.list b =>
      match PyVal.decEqList a b with
      | isTrue h => isTrue (congrArg PyVal.list h)
      | isFalse h => isFalse (fun hh => h (PyVal.list.inj hh))
  | PyVal.none, PyVal.str _ => isFalse (fun h => PyVal.noConfusion h)
  | PyVal.none, PyVal.int _ => isFalse (fun h => PyVal.noConfusion h)
  | PyVal.none, PyVal.bool _ => isFalse (fun h => PyVal.noConfusion h)
  | PyVal.none, PyVal.list _ => isFalse (fun h => PyVal.noConfusion h)
  | PyVal.str _, PyVal.none => isFalse (fun h => PyVal.noConfusion h)
  | PyVal.str _, PyVal.int _ => isFalse (fun h => PyVal.noConfusion h)
  | PyVal.str _, PyVal.bool _ => isFalse (fun h => PyVal.noConfusion h)
  | PyVal.str _, PyVal.list _ => isFalse (fun h => PyVal.noConfusion h)
  | PyVal.int _, PyVal.none => isFalse (fun h => PyVal.noConfusion h)
  | PyVal.int _, PyVal.str _ => isFalse (fun h => PyVal.noConfusion h)
  | PyVal.int _, PyVal.bool _ => isFalse (fun h => PyVal.noConfusion h)
  | PyVal.int _, PyVal.list _ => isFalse (fun h => PyVal.noConfusion h)
  | PyVal.bool _, PyVal.none => isFalse (fun h => PyVal.noConfusion h)
  | PyVal.bool _, PyVal.str _ => isFalse (fun h => PyVal.noConfusion h)
  | PyVal.bool _, PyVal.int _ => isFalse (fun h => PyVal.noConfusion h)
  | PyVal.bool _, PyVal.list _ => isFalse (fun h => PyVal.noConfusion h)
  | PyVal.list _, PyVal.none => isFalse (fun h => PyVal.noConfusion h)
  | PyVal.list _, PyVal.str _ => isFalse (fun h => PyVal.noConfusion h)
  | PyVal.list _, PyVal.int _ => isFalse (fun h => PyVal.noConfusion h)
  | PyVal.list _, PyVal.bool _ => isFalse (fun h => PyVal.noConfusion h)

/-- Decidable equality of lists of Python values. -/
def PyVal.decEqList : (a b : List PyVal) → Decidable (a = b)
  | [], [] => isTrue rfl
  | [], _ :: _ => isFalse (fun h => List.noConfusion h)
  | _ :: _, [] => isFalse (fun h => List.noConfusion h)
  | x :: xs, y :: ys =>
      match PyVal.decEq x y, PyVal.decEqList xs ys with
      | isTrue h1, isTrue h2 => isTrue (by rw [h1, h2])
      | isFalse h1, _ => isFalse (fun hh => h1 (List.cons.inj hh).1)
      | _, isFalse h2 => isFalse (fun hh => h2 (List.cons.inj hh).2)

end

instance : DecidableEq PyVal := PyVal.decEq

mutual

/-- Python `repr` of a value, as used when a value is interpolated into a
container stringification (`str(['a'])` shows quoted elements). -/
def pyRepr : PyVal → String
  | PyVal.none => "None"
  | PyVal.str s => String.singleton (Char.ofNat 39) ++ s ++ String.singleton (Char.ofNat 39)
  | PyVal.int n => toString n
  | PyVal.bool b => if b then "True" else "False"
  | PyVal.list xs => "[" ++ pyReprList xs ++ "]"

/-- `repr` of list elements joined by a comma-space, as Python prints lists. -/
def pyReprList : List PyVal → String
  | [] => ""
  | [x] => pyRepr x
  | x :: xs => pyRepr x ++ ", " ++ pyReprList xs

end

/-- Python `str(v)`: identical to `repr` except on top-level strings. -/
def pyStr : PyVal → String
  | PyVal.str s => s
  | v => pyRepr v

/-- Python truthiness: `None`, `""`, `0`, `False` and `[]` are falsy. -/
def truthy : PyVal → Bool
  | PyVal.none => false
  | PyVal.str s => s ≠ ""
  | PyVal.int n => n ≠ 0
  | PyVal.bool b => b
  | PyVal.list xs => ¬ xs.isEmpty

/-- Whether a value is a Python `list` (the `type(v) == type([])` test used at
handle_request.py lines 226 and 232). -/
def isList : PyVal → Bool
  | PyVal.list _ => true
  | _ => false

/-- A Python dict with string keys, in insertion order. -/
abbrev Dict := List (String × PyVal)

/-- `d.get(k)` returning `Option`: `Option.none` when the key is absent. -/
def dictLookup : Dict → String → Option PyVal
  | [], _ => Option.none
  | (k0, v0) :: t, k => if k0 == k then some v0 else dictLookup t k

/-- Python `d.get(k)`: `None` when the key is absent. -/
def dictGet (d : Dict) (k : String) : PyVal := (dictLookup d k).getD PyVal.none

/-- Python `k in d`. -/
def dictHasKey (d : Dict) (k : String) : Bool := (dictLookup d k).isSome

/-- Python `d[k] = v`: replace in place if the key exists, else append. -/
def dictSet : Dict → String → PyVal → Dict
  | [], k, v => [(k, v)]
  | (k0, v0) :: t, k, v => if k0 == k then (k0, v) :: t else (k0, v0) :: dictSet t k v

/-- Python `list(d.keys())`, in insertion order. -/
def dictKeys (d : Dict) : List String := d.map Prod.fst

/-- Python `d.update(u)`. -/
def dictUpdate (d u : Dict) : Dict := u.foldl (fun acc kv => dictSet acc kv.1 kv.2) d

/-- An ASCII hexadecimal digit, either case. -/
def isHexDigitCI (c : Char) : Bool :=
  c.isDigit || (c ≥ 'a' && c ≤ 'f') || (c ≥ 'A' && c ≤ 'F')

/-- Modelled from the spec: `gateway.utils.valid_uuid4` is imported by
`datamesh/utils.py` but `gateway/utils.py` is not under `src/`.  Spec §4.A:
the discriminator returns `uuid` iff the string parses as an RFC-4122 v4 UUID
(case-insensitive hex with standard dashes), i.e. 36 characters, dashes at
offsets 8, 13, 18 and 23, the version nibble at offset 14 equal to `4`, the
variant nibble at offset 19 in `{8, 9, a, b}`, all other characters hex. -/
def valid_uuid4 (s : String) : Bool :=
  let cs := s.data
  cs.length == 36 &&
    cs.enum.all fun ic =>
      let i := ic.1
      let c := ic.2
      if i == 8 || i == 13 || i == 18 || i == 23 then c == '-'
      else if i == 14 then c == '4'
      else if i == 19 then c == '8' || c == '9' || c == 'a' || c == 'b' || c == 'A' || c == 'B'
      else isHexDigitCI c

/-- The dict produced by `validate_primary_key` (datamesh/utils.py lines
62-88): at most one of `record_id`/`record_uuid` and one of
`related_record_id`/`related_record_uuid` is a key of the dict.
`Option.none` means the key is absent from the dict. -/
structure PkDict where
  record_id : Option PyVal := Option.none
  record_uuid : Option PyVal := Option.none
  related_record_id : Option PyVal := Option.none
  related_record_uuid : Option PyVal := Option.none
deriving DecidableEq

/-- Python truthiness of the pk dict (`if not pk_dict` in `join_record`):
an empty dict is falsy. -/
def pkDictEmpty (d : PkDict) : Bool :=
  d.record_id == Option.none && d.record_uuid == Option.none &&
    d.related_record_id == Option.none && d.related_record_uuid == Option.none

/-- `validate_primary_key` (datamesh/utils.py lines 62-88): classify each pk
via `valid_uuid4(str(pk))` and return the dict selecting `_uuid` or `_id`
fields accordingly. -/
def validate_primary_key (origin_model_pk related_model_pk : PyVal) : PkDict :=
  let origin_pk_type := if valid_uuid4 (pyStr origin_model_pk) then "uuid" else "id"
  let related_pk_type := if valid_uuid4 (pyStr related_model_pk) then "uuid" else "id"
  if origin_pk_type == "id" && related_pk_type == "id" then
    { record_id := some origin_model_pk, related_record_id := some related_model_pk }
  else if origin_pk_type == "uuid" && related_pk_type == "uuid" then
    { record_uuid := some origin_model_pk, related_record_uuid := some related_model_pk }
  else if origin_pk_type == "uuid" && related_pk_type == "id" then
    { record_uuid := some origin_model_pk, related_record_id := some related_model_pk }
  else
    { record_id := some origin_model_pk, related_record_uuid := some related_model_pk }

/-- A row of the `JoinRecord` table.  Modelled from the spec (§3:
`datamesh/models.py` is not under `src/`): a JoinRecord carries a foreign key
to a `Relationship` (represented by that row's `key`, `Option.none` for SQL
NULL), the four pk columns, and an `organization` column.  Value columns hold
`PyVal.none` for SQL NULL. -/
structure JoinRecord where
  relationship : Option String
  record_id : PyVal
  record_uuid : PyVal
  related_record_id : PyVal
  related_record_uuid : PyVal
  organization_id : PyVal
deriving DecidableEq

/-- Modelled from the spec (§3, §4.B-C; `datamesh/models.py` is not under
`src/`): the persistent state behind `Relationship.objects` and
`JoinRecord.objects` — the administrator-seeded relationship keys and the
join-record rows. -/
structure DB where
  relationships : List String
  joinRecords : List JoinRecord
deriving DecidableEq

/-- One keyword of a Django `filter(**pk_dict, ...)` call: a key absent from
the dict constrains nothing; a present key requires field equality (a `None`
value matches SQL NULL, which the model stores as `PyVal.none`). -/
def matchField (filterVal : Option PyVal) (fieldVal : PyVal) : Bool :=
  match filterVal with
  | Option.none => true
  | some v => fieldVal == v

/-- Whether a join record satisfies `filter(**pk_dict)`. -/
def pkDictMatches (d : PkDict) (j : JoinRecord) : Bool :=
  matchField d.record_id j.record_id && matchField d.record_uuid j.record_uuid &&
    matchField d.related_record_id j.related_record_id &&
    matchField d.related_record_uuid j.related_record_uuid

/-- `JoinRecord.objects.filter(**pk_dict, relationship__key=relationship)`
(datamesh/utils.py line 29): the rows matching the pk dict whose relationship
foreign key resolves to a row with the given key (a NULL foreign key never
matches a `relationship__key` lookup). -/
def join_filter_instance (pk_dict : PkDict) (relationship : String) (db : DB) :
    List JoinRecord :=
  db.joinRecords.filter fun j =>
    pkDictMatches pk_dict j && j.relationship == some relationship

/-- `Relationship.objects.filter(key=relationship).first()` (datamesh/utils.py
line 41): the first relationship row with that key, or `None`. -/
def relationship_filter_first (db : DB) (relationship : String) : Option String :=
  if db.relationships.contains relationship then some relationship else Option.none

/-- The row written by `JoinRecord.objects.create(relationship=..., **pk_dict,
organization_id=None)` (datamesh/utils.py lines 40-44): a pk key absent from
the dict leaves its column NULL. -/
def createdJoinRow (d : PkDict) (rel : Option String) : JoinRecord :=
  { relationship := rel,
    record_id := d.record_id.getD PyVal.none,
    record_uuid := d.record_uuid.getD PyVal.none,
    related_record_id := d.related_record_id.getD PyVal.none,
    related_record_uuid := d.related_record_uuid.getD PyVal.none,
    organization_id := PyVal.none }

/-- `join_record` (datamesh/utils.py lines 34-44): recompute the pk dict when
the passed one is falsy (`None` or empty), then `JoinRecord.objects.create`
with the relationship row looked up by key and `organization_id=None`. -/
def join_record (relationship : String) (origin_model_pk related_model_pk : PyVal)
    (pk_dict : Option PkDict) (db : DB) : DB :=
  let d := match pk_dict with
    | some d0 => if pkDictEmpty d0 then validate_primary_key origin_model_pk related_model_pk else d0
    | Option.none => validate_primary_key origin_model_pk related_model_pk
  { db with joinRecords :=
      db.joinRecords ++ [createdJoinRow d (relationship_filter_first db relationship)] }

/-- `validate_join` (datamesh/utils.py lines 25-31): build the pk dict, look
for an existing matching join record, and only if none exists call
`join_record` (with `origin_model_pk=None, related_model_pk=None` and the pk
dict). -/
def validate_join (record_uuid related_record_uuid : PyVal) (relationship : String)
    (db : DB) : DB :=
  let pk_dict := validate_primary_key record_uuid related_record_uuid
  let join_record_instance := join_filter_instance pk_dict relationship db
  if join_record_instance.isEmpty then
    join_record relationship PyVal.none PyVal.none (some pk_dict) db
  else db

/-- Case-insensitive substring test on character lists. -/
def subListCI : List Char → List Char → Bool
  | _, [] => true
  | [], _ :: _ => false
  | h :: t, n => (n.isPrefixOf (h :: t)) || subListCI t n

/-- Django `field__icontains=pk`: case-insensitive substring match of the
stringified pk against the stringified field; SQL NULL never matches. -/
def icontains (fieldVal : PyVal) (pk : PyVal) : Bool :=
  match fieldVal with
  | PyVal.none => false
  | f => subListCI ((pyStr f).data.map Char.toLower) ((pyStr pk).data.map Char.toLower)

/-- The base queryset of `delete_join_record` (datamesh/utils.py lines 48-49):
rows where any of the four pk columns icontains the pk. -/
def joinTouchContains (pk : PyVal) (j : JoinRecord) : Bool :=
  icontains j.record_uuid pk || icontains j.related_record_uuid pk ||
    icontains j.record_id pk || icontains j.related_record_id pk

/-- `delete_join_record` (datamesh/utils.py lines 47-59).  The base queryset
is lazy, so each `.filter(**pk_dict).delete()` is evaluated against the
then-current table. -/
def delete_join_record (pk previous_pk : PyVal) (db : DB) : DB :=
  if truthy previous_pk && truthy pk then
    let d1 := validate_primary_key pk previous_pk
    let db1 := { db with joinRecords :=
      db.joinRecords.filter fun j => ¬ (joinTouchContains pk j && pkDictMatches d1 j) }
    let d2 := validate_primary_key previous_pk pk
    { db1 with joinRecords :=
      db1.joinRecords.filter fun j => ¬ (joinTouchContains pk j && pkDictMatches d2 j) }
  else if truthy pk && ¬ truthy previous_pk then
    { db with joinRecords := db.joinRecords.filter fun j => ¬ joinTouchContains pk j }
  else db

/-- One entry of `request_kwargs['request_param']` (the canonical metadata per
relationship, handle_request.py lines 27-31 and spec §4.H): lookup direction,
pk-field names, fk field, and the mutable `pk`/`method` slots. -/
structure RelParam where
  is_forward_lookup : Bool
  origin_model_pk_name : String
  related_model_pk_name : String
  fk_field_name : String
  pk : PyVal
  method : String
deriving DecidableEq

/-- The mutable state of a `RequestHandler` (handle_request.py lines 10-16)
restricted to one relationship, together with the inbound request and the
database.  After `retrieve_relationship_data` line 157 rebinds
`self.relationship_data` to `self.request`, `relationship_data.data`,
`relation_data.data` and `request.data` are one and the same dict; the single
field `request_data` models that shared object. -/
structure Handler where
  request_data : Dict
  resp_data : Dict
  request_method : String
  method : String
  session_org : PyVal
  organization : PyVal
  origin_model_pk_name : String
  related_model_pk_name : String
  fk_field_name : String
  is_forward_lookup : Bool
  param : RelParam
  db : DB
deriving DecidableEq

/-- `validate_request` lines 26-32: copy the per-relationship metadata from
`request_kwargs['request_param']` into the instance attributes and read the
organization UUID from the request session. -/
def sync_attrs (h : Handler) : Handler :=
  { h with organization := h.session_org,
           origin_model_pk_name := h.param.origin_model_pk_name,
           related_model_pk_name := h.param.related_model_pk_name,
           fk_field_name := h.param.fk_field_name,
           is_forward_lookup := h.param.is_forward_lookup }

/-- The `pk` local of `prepare_update_request` (handle_request.py lines
77-83): the relation pk read from the (aliased) relation data, choosing the
origin or related pk name by the lookup direction. -/
def pur_pk (h : Handler) : PyVal :=
  if ¬ h.param.is_forward_lookup then dictGet h.request_data h.origin_model_pk_name
  else dictGet h.request_data h.related_model_pk_name

/-- The `res_pk` local of `prepare_update_request` (lines 77-83): the pk read
from the primary response data. -/
def pur_res_pk (h : Handler) : PyVal :=
  if ¬ h.param.is_forward_lookup then dictGet h.resp_data h.related_model_pk_name
  else dictGet h.resp_data h.origin_model_pk_name

/-- The parameter names of `validate_join` as defined at datamesh/utils.py
line 25. -/
def validate_join_param_names : List String :=
  ["record_uuid", "related_record_uuid", "relationship"]

/-- The keyword-argument names of the `validate_join` call at
handle_request.py line 117. -/
def line117_call_kwargs : List String :=
  ["origin_model_pk", "related_model_pk", "relationship"]

/-- The keyword-argument names of the `validate_join` call at
handle_request.py line 230. -/
def line230_call_kwargs : List String :=
  ["origin_model_pk", "related_model_pk", "relationship"]

/-- The keyword-argument names of the `validate_join` call at
handle_request.py line 236. -/
def line236_call_kwargs : List String :=
  ["origin_model_pk", "related_model_pk", "relationship"]

/-- The keyword-argument names of the `validate_join` call at
handle_request.py line 238. -/
def line238_call_kwargs : List String :=
  ["origin_model_pk", "related_model_pk", "relationship"]

/-- Python call semantics for a call made with keyword arguments only: the
call raises `TypeError` before the callee body runs iff some keyword is not a
parameter name (unexpected keyword argument) or some parameter without a
default receives no argument. -/
def py_call_raises_type_error (params kwargs : List String) : Bool :=
  (kwargs.any fun k => ¬ params.contains k) || (params.any fun p => ¬ kwargs.contains p)

/-- Outcome of `prepare_update_request`: the returned value, or a propagating
`TypeError` from the `validate_join` call at line 117 (its keyword arguments
`origin_model_pk`/`related_model_pk` are not parameters of `validate_join`,
so the call raises before executing; the `return False` at line 119 is
unreachable). -/
inductive UpdateResult where
  | typeError : UpdateResult
  | returnedFalse : UpdateResult
  | relationshipData : UpdateResult
deriving DecidableEq

/-- `prepare_update_request` (handle_request.py lines 66-121).  Notes kept
from the source: the condition at line 100 is
`("join" and "previous_pk") in self.relationship_data.data`, which Python
evaluates as `"previous_pk" in self.relationship_data.data`; and the
arguments computed at lines 101-115 feed only the line-117 call, which raises
`TypeError` without touching the database. -/
def prepare_update_request (h : Handler) : Handler × UpdateResult :=
  let pk := pur_pk h
  let res_pk := pur_res_pk h
  if ¬ truthy pk then
    let data1 := if dictHasKey h.request_data h.fk_field_name
                 then dictSet h.request_data h.fk_field_name pk
                 else h.request_data
    ({ h with request_data := data1,
              param := { h.param with pk := PyVal.none },
              method := "POST" },
     UpdateResult.relationshipData)
  else
    let h1 := { h with method := h.request_method,
                       param := { h.param with method := h.request_method, pk := pk } }
    if dictHasKey h1.request_data "previous_pk" then
      let db1 := delete_join_record res_pk (dictGet h1.request_data "previous_pk") h1.db
      ({ h1 with db := db1 }, UpdateResult.typeError)
    else
      (h1, UpdateResult.relationshipData)

/-- `prepare_create_request` (handle_request.py lines 53-64). -/
def prepare_create_request (h : Handler) : Handler :=
  let pk0 := dictGet h.resp_data h.origin_model_pk_name
  let pk := if ¬ h.is_forward_lookup then dictGet h.resp_data h.related_model_pk_name else pk0
  if truthy pk && h.fk_field_name ≠ "" then
    let data1 := if dictHasKey h.request_data h.fk_field_name
                 then dictSet h.request_data h.fk_field_name pk
                 else h.request_data
    { h with request_data := data1, param := { h.param with method := h.request_method } }
  else h

/-- How `validate_request` ends: the early return of the POST-extend branch
(line 38), a `KeyError` when the indexing at lines 36-37 misses, the early
return at line 48, the fall-through to `perform_request` at line 51, or a
`TypeError` propagating out of `prepare_update_request`. -/
inductive RequestOutcome where
  | extendJoin : RequestOutcome
  | keyError : RequestOutcome
  | skipped : RequestOutcome
  | performed : RequestOutcome
  | typeError : RequestOutcome
deriving DecidableEq

/-- `validate_request` (handle_request.py lines 18-51), driven by
`request.method` and the query parameter flags. -/
def validate_request (relationship : String) (query_params : List String) (h : Handler) :
    Handler × RequestOutcome :=
  let h := sync_attrs h
  if h.method == "POST" && query_params.contains "extend" then
    match dictLookup h.resp_data h.origin_model_pk_name,
          dictLookup h.request_data h.related_model_pk_name with
    | some origin_model_pk, some related_model_pk =>
        ({ h with db := join_record relationship origin_model_pk related_model_pk Option.none h.db },
         RequestOutcome.extendJoin)
    | _, _ => (h, RequestOutcome.keyError)
  else
    let h := if h.method == "POST" && query_params.contains "join"
             then prepare_create_request h else h
    if (h.method == "PUT" || h.method == "PATCH") && query_params.contains "join" then
      match prepare_update_request h with
      | (h1, UpdateResult.typeError) => (h1, RequestOutcome.typeError)
      | (h1, UpdateResult.returnedFalse) => (h1, RequestOutcome.skipped)
      | (h1, UpdateResult.relationshipData) => (h1, RequestOutcome.performed)
    else (h, RequestOutcome.performed)

/-- The `related_lookup_field_uuid` local of `validate_relationship_data`
(handle_request.py line 203): the fk field of the primary response. -/
def vrd_related_lookup (rp : RelParam) (resp_data : Dict) : PyVal :=
  dictGet resp_data rp.fk_field_name

/-- The `origin_lookup_field_uuid` local of `validate_relationship_data`
after the reverse-relation adjustment (handle_request.py lines 202 and
214-222): the pop-by-index at line 218 drops the first response key before
the containment test. -/
def vrd_origin_lookup (rp : RelParam) (resp_data : Dict) : PyVal :=
  let origin0 := dictGet resp_data rp.origin_model_pk_name
  if ¬ rp.is_forward_lookup then
    if rp.related_model_pk_name == rp.fk_field_name then
      let resp_data_keys := (dictKeys resp_data).drop 1
      if resp_data_keys.contains rp.fk_field_name then
        dictGet resp_data rp.related_model_pk_name
      else origin0
    else dictGet resp_data rp.related_model_pk_name
  else origin0

/-- How `validate_relationship_data` ends: normally (no join validated), with
an `IndexError` from `resp_data_keys.pop(0)` on an empty response dict (line
218), or with the `TypeError` raised by the first `validate_join` call
reached (lines 230/236/238; the keyword arguments do not match the
`validate_join` parameters). -/
inductive VRDResult where
  | ok : VRDResult
  | indexError : VRDResult
  | typeError : VRDResult
deriving DecidableEq

/-- `validate_relationship_data` (handle_request.py lines 190-238).  Whenever
both lookup values are truthy, every dispatch branch reaches a
`validate_join` call whose keyword arguments raise `TypeError` at the first
call, so the loops at lines 227 and 233 never complete an iteration and the
database is never touched. -/
def validate_relationship_data (resp_data : Dict) (rp : RelParam) (db : DB) :
    DB × VRDResult :=
  if ¬ rp.is_forward_lookup && rp.related_model_pk_name == rp.fk_field_name
      && dictKeys resp_data == ([] : List String) then
    (db, VRDResult.indexError)
  else if truthy (vrd_related_lookup rp resp_data) && truthy (vrd_origin_lookup rp resp_data) then
    match vrd_related_lookup rp resp_data with
    | PyVal.list _ => (db, VRDResult.typeError)
    | _ =>
      match vrd_origin_lookup rp resp_data with
      | PyVal.list _ => (db, VRDResult.typeError)
      | _ => (db, VRDResult.typeError)
  else (db, VRDResult.ok)

/-- The sequence of `(origin_model_pk, related_model_pk)` argument pairs
handed to the `validate_join` call sites by the dispatch at handle_request.py
lines 224-238: one call per element when one lookup value is a list (pairing
the other, unchanged value with each element — the rebinding of the loop
source at lines 228/234 does not affect the iterator), one call for a
scalar/scalar pair, and none when either value is falsy. -/
def validate_relationship_join_pairs (origin_lookup_field_uuid related_lookup_field_uuid : PyVal) :
    List (PyVal × PyVal) :=
  if truthy related_lookup_field_uuid && truthy origin_lookup_field_uuid then
    match related_lookup_field_uuid with
    | PyVal.list xs => xs.map fun u => (origin_lookup_field_uuid, u)
    | _ =>
      match origin_lookup_field_uuid with
      | PyVal.list ys => ys.map fun u => (u, related_lookup_field_uuid)
      | _ => [(origin_lookup_field_uuid, related_lookup_field_uuid)]
  else []

/-- The inbound request object: its HTTP method and its (mutable) `data`
dict. -/
structure PyRequest where
  method : String
  data : Dict
deriving DecidableEq

/-- The per-instance body of the loop in `retrieve_relationship_data`
(handle_request.py lines 153-159): reset `request.method`, rebind
`self.relationship_data` to the request object itself, clear `request.data`
and overwrite it with the sub-object's fields. -/
def retrieve_step (request_method : String) (inst : Dict) (req : PyRequest) :
    PyRequest :=
  { req with method := request_method, data := dictUpdate [] inst }

/-- Modelled from the spec: the organization scoping that §3 requires of join
reads — "when an organization is present on the inbound request, join reads
MUST filter to (`organization = req.org` OR `organization IS NULL`)".  Used
only to compare the claimed read against the one the source performs. -/
def spec_org_scoped_filter (reqOrg : PyVal) (records : List JoinRecord) :
    List JoinRecord :=
  records.filter fun j => j.organization_id == reqOrg || j.organization_id == PyVal.none

/-- A join record linking integer pks 1 and 2 under relationship `rel`,
attached to organization `org-A`. -/
def jrOrgA : JoinRecord :=
  { relationship := some "rel", record_id := PyVal.int 1, record_uuid := PyVal.none,
    related_record_id := PyVal.int 2, related_record_uuid := PyVal.none,
    organization_id := PyVal.str "org-A" }

/-- A database containing only `jrOrgA`. -/
def dbOrgA : DB := { relationships := ["rel"], joinRecords := [jrOrgA] }

/-- A join record whose only populated pk column is the integer 11. -/
def jrEleven : JoinRecord :=
  { relationship := some "rel", record_id := PyVal.int 11, record_uuid := PyVal.none,
    related_record_id := PyVal.int 12, related_record_uuid := PyVal.none,
    organization_id := PyVal.none }

/-- A database containing only `jrEleven`. -/
def dbEleven : DB := { relationships := ["rel"], joinRecords := [jrEleven] }

/-- The join record linking integer pks 1 and 2 under relationship `rel`
(the "old join" of the update-with-previous_pk scenario). -/
def jrOneTwo : JoinRecord :=
  { relationship := some "rel", record_id := PyVal.int 1, record_uuid := PyVal.none,
    related_record_id := PyVal.int 2, related_record_uuid := PyVal.none,
    organization_id := PyVal.none }

/-- Handler state for the PATCH-with-previous_pk scenario: the primary
response carries pk 1, the relationship sub-object carries its own pk 3 and
`previous_pk` 2, and the store holds the old join (1, 2). -/
def hPatch : Handler :=
  { request_data := [("related_pk", PyVal.int 3), ("previous_pk", PyVal.int 2)],
    resp_data := [("origin_pk", PyVal.int 1)],
    request_method := "PATCH", method := "PATCH",
    session_org := PyVal.str "org-A", organization := PyVal.none,
    origin_model_pk_name := "origin_pk", related_model_pk_name := "related_pk",
    fk_field_name := "fk", is_forward_lookup := true,
    param := { is_forward_lookup := true, origin_model_pk_name := "origin_pk",
               related_model_pk_name := "related_pk", fk_field_name := "fk",
               pk := PyVal.none, method := "PATCH" },
    db := { relationships := ["rel"], joinRecords := [jrOneTwo] } }

/-- Handler state for the POST-extend scenario: the primary response carries
pk 1, the inbound body carries the related pk 2, the store is empty. -/
def hExtend : Handler :=
  { request_data := [("related_pk", PyVal.int 2)],
    resp_data := [("origin_pk", PyVal.int 1)],
    request_method := "POST", method := "POST",
    session_org := PyVal.str "org-A", organization := PyVal.none,
    origin_model_pk_name := "origin_pk", related_model_pk_name := "related_pk",
    fk_field_name := "fk", is_forward_lookup := true,
    param := { is_forward_lookup := true, origin_model_pk_name := "origin_pk",
               related_model_pk_name := "related_pk", fk_field_name := "fk",
               pk := PyVal.none, method := "POST" },
    db := { relationships := ["rel"], joinRecords := [] } }

/-- Relationship metadata for the forward list-valued scenario of
`validate_relationship_data`. -/
def rpForward : RelParam :=
  { is_forward_lookup := true, origin_model_pk_name := "origin_pk",
    related_model_pk_name := "related_pk", fk_field_name := "fk",
    pk := PyVal.none, method := "PATCH" }

/-- Primary-response data whose fk field is a one-element list. -/
def respListFk : Dict :=
  [("origin_pk", PyVal.int 1), ("fk", PyVal.list [PyVal.int 2])]

/-!
## Helper lemmas
-/

/-- A pk dict produced by `validate_primary_key` always carries two keys, so
it is never falsy. -/
theorem pkDictEmpty_validate_primary_key (a b : PyVal) :
    pkDictEmpty (validate_primary_key a b) = false := by
  cases h1 : valid_uuid4 (pyStr a) <;> cases h2 : valid_uuid4 (pyStr b) <;>
    simp [validate_primary_key, pkDictEmpty, h1, h2]

/-- The row created from a pk dict satisfies the Django filter on that same
pk dict. -/
theorem pkDictMatches_createdJoinRow (d : PkDict) (rel : Option String) :
    pkDictMatches d (createdJoinRow d rel) = true := by
  cases h1 : d.record_id <;> cases h2 : d.record_uuid <;>
    cases h3 : d.related_record_id <;> cases h4 : d.related_record_uuid <;>
      simp [pkDictMatches, createdJoinRow, matchField, h1, h2, h3, h4]

/-- `join_record` invoked with a pk dict from `validate_primary_key` appends
exactly the row built from that dict. -/
theorem join_record_some_pk_dict (relationship : String) (o r a b : PyVal) (db : DB) :
    join_record relationship o r (some (validate_primary_key a b)) db
      = { db with joinRecords := db.joinRecords
            ++ [createdJoinRow (validate_primary_key a b)
                  (relationship_filter_first db relationship)] } := by
  simp [join_record, pkDictEmpty_validate_primary_key]

/-- `delete_join_record` never adds rows. -/
theorem delete_join_record_length_le (pk previous_pk : PyVal) (db : DB) :
    (delete_join_record pk previous_pk db).joinRecords.length ≤ db.joinRecords.length := by
  unfold delete_join_record
  split
  · exact le_trans (List.length_filter_le _ _) (List.length_filter_le _ _)
  · split
    · exact List.length_filter_le _ _
    · exact le_refl _

/-- A list is a (case-preserved) substring of itself. -/
theorem isPrefixOf_self (l : List Char) : l.isPrefixOf l = true := by
  induction l with
  | nil => rfl
  | cons a t ih => simp [List.isPrefixOf, ih]

/-- `subListCI` finds the needle when it equals the haystack. -/
theorem subListCI_self (l : List Char) : subListCI l l = true := by
  cases l with
  | nil => rfl
  | cons a t => simp [subListCI, isPrefixOf_self]

/-- A truthy `d.get(k)` implies the dict is non-empty. -/
theorem dictKeys_ne_nil_of_truthy_get (d : Dict) (k : String)
    (h : truthy (dictGet d k) = true) : (dictKeys d == ([] : List String)) = false := by
  cases d with
  | nil => simp [dictGet, dictLookup, truthy] at h
  | cons p t => simp [dictKeys]

/-- Under truthy lookup values, `validate_relationship_data` always ends in
the `TypeError` of the first `validate_join` call, leaving the database
untouched. -/
theorem validate_relationship_data_typeError (resp_data : Dict) (rp : RelParam) (db : DB)
    (hrel : truthy (vrd_related_lookup rp resp_data) = true)
    (hor : truthy (vrd_origin_lookup rp resp_data) = true) :
    validate_relationship_data resp_data rp db = (db, VRDResult.typeError) := by
  have hkeys : (dictKeys resp_data == ([] : List String)) = false :=
    dictKeys_ne_nil_of_truthy_get resp_data rp.fk_field_name hrel
  unfold validate_relationship_data
  rw [hkeys]
  simp only [Bool.and_false, Bool.false_eq_true, if_false, hrel, hor, Bool.and_self, if_true]
  cases vrd_related_lookup rp resp_data <;>
    cases vrd_origin_lookup rp resp_data <;> rfl

/-- When the existence check finds a row, `validate_join` leaves the store
unchanged. -/
theorem validate_join_found (a b : PyVal) (rel : String) (db : DB)
    (h : join_filter_instance (validate_primary_key a b) rel db ≠ []) :
    validate_join a b rel db = db := by
  simp only [validate_join]
  cases hL : join_filter_instance (validate_primary_key a b) rel db with
  | nil => exact absurd hL h
  | cons x xs => rfl

/-- When the existence check finds nothing, `validate_join` appends the row
built from the pk dict. -/
theorem validate_join_not_found (a b : PyVal) (rel : String) (db : DB)
    (h : join_filter_instance (validate_primary_key a b) rel db = []) :
    validate_join a b rel db
      = { db with joinRecords := db.joinRecords
            ++ [createdJoinRow (validate_primary_key a b)
                  (relationship_filter_first db rel)] } := by
  simp only [validate_join]
  rw [h]
  simp only [List.isEmpty_nil, if_true]
  exact join_record_some_pk_dict rel PyVal.none PyVal.none a b db

/-- The inserted row passes the predicate of its own existence check. -/
theorem createdJoinRow_pred (d : PkDict) (rel : String) :
    (pkDictMatches d (createdJoinRow d (some rel))
      && ((createdJoinRow d (some rel)).relationship == some rel)) = true := by
  rw [pkDictMatches_createdJoinRow]
  simp [createdJoinRow]

/-- After an insert for a registered relationship key, the existence check
finds exactly the inserted row. -/
theorem join_filter_after_insert (a b : PyVal) (rel : String) (db : DB)
    (hrel : db.relationships.contains rel = true)
    (h : join_filter_instance (validate_primary_key a b) rel db = []) :
    join_filter_instance (validate_primary_key a b) rel (validate_join a b rel db)
      = [createdJoinRow (validate_primary_key a b) (some rel)] := by
  rw [validate_join_not_found a b rel db h]
  have hmem : rel ∈ db.relationships := by simpa using hrel
  have hfirst : relationship_filter_first db rel = some rel := by
    simp [relationship_filter_first, hmem]
  rw [hfirst]
  simp only [join_filter_instance] at h ⊢
  rw [List.filter_append, h]
  simp [List.filter_cons, createdJoinRow_pred]

/-- Looking a key up after a `d[k0] = v` assignment. -/
theorem dictLookup_dictSet (d : Dict) (k0 k : String) (v : PyVal) :
    dictLookup (dictSet d k0 v) k = if k0 == k then some v else dictLookup d k := by
  induction d with
  | nil => rfl
  | cons p t ih =>
    obtain ⟨a, b⟩ := p
    simp only [dictSet]
    by_cases h1 : a = k0
    · subst h1
      simp only [beq_self_eq_true, if_true, dictLookup]
      by_cases h2 : a = k
      · subst h2; simp
      · have hb : (a == k) = false := beq_eq_false_iff_ne.mpr h2
        simp [hb]
    · have hb1 : (a == k0) = false := beq_eq_false_iff_ne.mpr h1
      simp only [hb1, Bool.false_eq_true, if_false, dictLookup, ih]
      by_cases h2 : a = k
      · subst h2
        have hb2 : (k0 == a) = false := beq_eq_false_iff_ne.mpr (fun hh => h1 hh.symm)
        simp [hb2]
      · have hb2 : (a == k) = false := beq_eq_false_iff_ne.mpr h2
        simp [hb2]

/-- A key present after `d.update(u)` was present in `d` or in `u`. -/
theorem dictHasKey_dictUpdate (u : Dict) (k : String) :
    ∀ d : Dict, dictHasKey (dictUpdate d u) k = true →
      dictHasKey d k = true ∨ dictHasKey u k = true := by
  induction u with
  | nil => exact fun d h => Or.inl h
  | cons p t ih =>
    intro d h
    obtain ⟨k0, v⟩ := p
    rcases ih (dictSet d k0 v) h with h1 | h1
    · rcases Bool.eq_false_or_eq_true (k0 == k) with hk | hk
      · right
        simp [dictHasKey, dictLookup, hk]
      · left
        unfold dictHasKey at h1 ⊢
        rw [dictLookup_dictSet, hk] at h1
        simpa using h1
    · right
      rcases Bool.eq_false_or_eq_true (k0 == k) with hk | hk
      · simp [dictHasKey, dictLookup, hk]
      · simp only [dictHasKey, dictLookup, hk, Bool.false_eq_true, if_false]
        exact h1

/-- `sync_attrs` does not touch the request method. -/
theorem sync_attrs_method (h : Handler) : (sync_attrs h).method = h.method := rfl

/-- `sync_attrs` does not touch the request data. -/
theorem sync_attrs_request_data (h : Handler) : (sync_attrs h).request_data = h.request_data := rfl

/-- `sync_attrs` does not touch the database. -/
theorem sync_attrs_db (h : Handler) : (sync_attrs h).db = h.db := rfl

/-- `sync_attrs` does not touch the primary response data. -/
theorem sync_attrs_resp_data (h : Handler) : (sync_attrs h).resp_data = h.resp_data := rfl

/-- `sync_attrs` copies the origin pk name from the request param. -/
theorem sync_attrs_origin_name (h : Handler) :
    (sync_attrs h).origin_model_pk_name = h.param.origin_model_pk_name := rfl

/-- `sync_attrs` copies the related pk name from the request param. -/
theorem sync_attrs_related_name (h : Handler) :
    (sync_attrs h).related_model_pk_name = h.param.related_model_pk_name := rfl

/-- In the populated-pk, previous_pk-present branch, `prepare_update_request`
deletes the old join and then ends in the `TypeError` of the line-117
`validate_join` call. -/
theorem prepare_update_request_previous_pk (h : Handler)
    (hpk : truthy (pur_pk h) = true)
    (hprev : dictHasKey h.request_data "previous_pk" = true) :
    prepare_update_request h
      = ({ h with method := h.request_method,
                  param := { h.param with method := h.request_method, pk := pur_pk h },
                  db := delete_join_record (pur_res_pk h)
                          (dictGet h.request_data "previous_pk") h.db },
         UpdateResult.typeError) := by
  simp [prepare_update_request, hpk, hprev]

/-!
## Claims
-/

/-- C1: For every origin_pk, related_pk and (registered) relationship key,
two successive calls to `validate_join` with the same arguments produce
exactly one JoinRecord: the first call inserts a record only if no JoinRecord
with the same populated PK fields and relationship key exists, and the second
call inserts nothing — `validate_join` is idempotent. -/
theorem C1_validate_join_idempotent (record_uuid related_record_uuid : PyVal)
    (relationship : String) (db : DB)
    (hrel : db.relationships.contains relationship = true) :
    (join_filter_instance (validate_primary_key record_uuid related_record_uuid)
        relationship db ≠ [] →
      validate_join record_uuid related_record_uuid relationship db = db) ∧
    (join_filter_instance (validate_primary_key record_uuid related_record_uuid)
        relationship db = [] →
      (validate_join record_uuid related_record_uuid relationship db).joinRecords.length
        = db.joinRecords.length + 1) ∧
    validate_join record_uuid related_record_uuid relationship
        (validate_join record_uuid related_record_uuid relationship db)
      = validate_join record_uuid related_record_uuid relationship db ∧
    (validate_join record_uuid related_record_uuid relationship
        (validate_join record_uuid related_record_uuid relationship db)).joinRecords.length
      = db.joinRecords.length
          + (if join_filter_instance (validate_primary_key record_uuid related_record_uuid)
                 relationship db = [] then 1 else 0) := by
  by_cases hE : join_filter_instance (validate_primary_key record_uuid related_record_uuid)
      relationship db = []
  · have h1 := validate_join_not_found record_uuid related_record_uuid relationship db hE
    have h2 := join_filter_after_insert record_uuid related_record_uuid relationship db hrel hE
    have h3 : validate_join record_uuid related_record_uuid relationship
        (validate_join record_uuid related_record_uuid relationship db)
        = validate_join record_uuid related_record_uuid relationship db :=
      validate_join_found _ _ _ _ (by rw [h2]; exact fun hh => List.noConfusion hh)
    refine ⟨fun hne => absurd hE hne, fun _ => ?_, h3, ?_⟩
    · rw [h1]; simp
    · rw [h3, h1]; simp [hE]
  · have h1 := validate_join_found record_uuid related_record_uuid relationship db hE
    refine ⟨fun _ => h1, fun he => absurd he hE, ?_, ?_⟩
    · simp only [h1]
    · simp only [h1]; simp [hE]

/-- Witness for C1 at concrete inputs: the relationship key `r` is
registered, and two successive `validate_join` calls on pks 1 and 2 starting
from an empty store leave exactly one JoinRecord. -/
theorem C1_validate_join_idempotent_witness :
    (({ relationships := ["r"], joinRecords := [] } : DB).relationships.contains "r" = true) ∧
    ((join_filter_instance (validate_primary_key (PyVal.int 1) (PyVal.int 2)) "r"
        { relationships := ["r"], joinRecords := [] } ≠ [] →
      validate_join (PyVal.int 1) (PyVal.int 2) "r"
          { relationships := ["r"], joinRecords := [] }
        = { relationships := ["r"], joinRecords := [] }) ∧
    (join_filter_instance (validate_primary_key (PyVal.int 1) (PyVal.int 2)) "r"
        { relationships := ["r"], joinRecords := [] } = [] →
      (validate_join (PyVal.int 1) (PyVal.int 2) "r"
          { relationships := ["r"], joinRecords := [] }).joinRecords.length
        = ({ relationships := ["r"], joinRecords := [] } : DB).joinRecords.length + 1) ∧
    validate_join (PyVal.int 1) (PyVal.int 2) "r"
        (validate_join (PyVal.int 1) (PyVal.int 2) "r"
          { relationships := ["r"], joinRecords := [] })
      = validate_join (PyVal.int 1) (PyVal.int 2) "r"
          { relationships := ["r"], joinRecords := [] } ∧
    (validate_join (PyVal.int 1) (PyVal.int 2) "r"
        (validate_join (PyVal.int 1) (PyVal.int 2) "r"
          { relationships := ["r"], joinRecords := [] })).joinRecords.length
      = ({ relationships := ["r"], joinRecords := [] } : DB).joinRecords.length
          + (if join_filter_instance (validate_primary_key (PyVal.int 1) (PyVal.int 2)) "r"
                 { relationships := ["r"], joinRecords := [] } = [] then 1 else 0)) :=
  ⟨by decide,
   C1_validate_join_idempotent (PyVal.int 1) (PyVal.int 2) "r"
     { relationships := ["r"], joinRecords := [] } (by decide)⟩

/-- C2: For every pair of PK values passed to a join insertion, the pk dict
selects the `_uuid` key for a side exactly when the stringified value is a
valid v4 UUID and the `_id` key otherwise (mixed kinds across sides allowed),
and the created JoinRecord populates exactly one of {record_id, record_uuid}
and exactly one of {related_record_id, related_record_uuid}. -/
theorem C2_pk_field_selection (origin_model_pk related_model_pk : PyVal)
    (relationship : String) (db : DB)
    (ho : origin_model_pk ≠ PyVal.none) (hr : related_model_pk ≠ PyVal.none) :
    ((valid_uuid4 (pyStr origin_model_pk) = true →
        (validate_primary_key origin_model_pk related_model_pk).record_uuid
            = some origin_model_pk ∧
          (validate_primary_key origin_model_pk related_model_pk).record_id = Option.none) ∧
     (valid_uuid4 (pyStr origin_model_pk) = false →
        (validate_primary_key origin_model_pk related_model_pk).record_id
            = some origin_model_pk ∧
          (validate_primary_key origin_model_pk related_model_pk).record_uuid = Option.none) ∧
     (valid_uuid4 (pyStr related_model_pk) = true →
        (validate_primary_key origin_model_pk related_model_pk).related_record_uuid
            = some related_model_pk ∧
          (validate_primary_key origin_model_pk related_model_pk).related_record_id
            = Option.none) ∧
     (valid_uuid4 (pyStr related_model_pk) = false →
        (validate_primary_key origin_model_pk related_model_pk).related_record_id
            = some related_model_pk ∧
          (validate_primary_key origin_model_pk related_model_pk).related_record_uuid
            = Option.none)) ∧
    ∃ j, (join_record relationship origin_model_pk related_model_pk Option.none
            db).joinRecords.getLast? = some j ∧
      (valid_uuid4 (pyStr origin_model_pk) = true →
        j.record_uuid = origin_model_pk ∧ j.record_id = PyVal.none) ∧
      (valid_uuid4 (pyStr origin_model_pk) = false →
        j.record_id = origin_model_pk ∧ j.record_uuid = PyVal.none) ∧
      (valid_uuid4 (pyStr related_model_pk) = true →
        j.related_record_uuid = related_model_pk ∧ j.related_record_id = PyVal.none) ∧
      (valid_uuid4 (pyStr related_model_pk) = false →
        j.related_record_id = related_model_pk ∧ j.related_record_uuid = PyVal.none) ∧
      ¬ (j.record_id = PyVal.none ∧ j.record_uuid = PyVal.none) ∧
      (j.record_id = PyVal.none ∨ j.record_uuid = PyVal.none) ∧
      ¬ (j.related_record_id = PyVal.none ∧ j.related_record_uuid = PyVal.none) ∧
      (j.related_record_id = PyVal.none ∨ j.related_record_uuid = PyVal.none) := by
  have hlast : (join_record relationship origin_model_pk related_model_pk Option.none
      db).joinRecords.getLast?
      = some (createdJoinRow (validate_primary_key origin_model_pk related_model_pk)
          (relationship_filter_first db relationship)) := by
    simp only [join_record]
    exact List.getLast?_concat _
  refine ⟨?_, ⟨_, hlast, ?_⟩⟩ <;>
    cases h1 : valid_uuid4 (pyStr origin_model_pk) <;>
      cases h2 : valid_uuid4 (pyStr related_model_pk) <;>
        simp_all [validate_primary_key, createdJoinRow]

/-- Witness for C2 at the claim's example: origin a v4 UUID string and
related the integer 42 yield `record_uuid` and `related_record_id` set. -/
theorem C2_pk_field_selection_witness :
    (PyVal.str "12345678-1234-4123-8123-123456789012" ≠ PyVal.none) ∧
    (PyVal.int 42 ≠ PyVal.none) ∧
    ((valid_uuid4 (pyStr (PyVal.str "12345678-1234-4123-8123-123456789012")) = true →
        (validate_primary_key (PyVal.str "12345678-1234-4123-8123-123456789012")
            (PyVal.int 42)).record_uuid
            = some (PyVal.str "12345678-1234-4123-8123-123456789012") ∧
          (validate_primary_key (PyVal.str "12345678-1234-4123-8123-123456789012")
            (PyVal.int 42)).record_id = Option.none) ∧
     (valid_uuid4 (pyStr (PyVal.str "12345678-1234-4123-8123-123456789012")) = false →
        (validate_primary_key (PyVal.str "12345678-1234-4123-8123-123456789012")
            (PyVal.int 42)).record_id
            = some (PyVal.str "12345678-1234-4123-8123-123456789012") ∧
          (validate_primary_key (PyVal.str "12345678-1234-4123-8123-123456789012")
            (PyVal.int 42)).record_uuid = Option.none) ∧
     (valid_uuid4 (pyStr (PyVal.int 42)) = true →
        (validate_primary_key (PyVal.str "12345678-1234-4123-8123-123456789012")
            (PyVal.int 42)).related_record_uuid = some (PyVal.int 42) ∧
          (validate_primary_key (PyVal.str "12345678-1234-4123-8123-123456789012")
            (PyVal.int 42)).related_record_id = Option.none) ∧
     (valid_uuid4 (pyStr (PyVal.int 42)) = false →
        (validate_primary_key (PyVal.str "12345678-1234-4123-8123-123456789012")
            (PyVal.int 42)).related_record_id = some (PyVal.int 42) ∧
          (validate_primary_key (PyVal.str "12345678-1234-4123-8123-123456789012")
            (PyVal.int 42)).related_record_uuid = Option.none)) ∧
    ∃ j, (join_record "rel" (PyVal.str "12345678-1234-4123-8123-123456789012")
            (PyVal.int 42) Option.none
            { relationships := ["rel"], joinRecords := [] }).joinRecords.getLast? = some j ∧
      (valid_uuid4 (pyStr (PyVal.str "12345678-1234-4123-8123-123456789012")) = true →
        j.record_uuid = PyVal.str "12345678-1234-4123-8123-123456789012" ∧
          j.record_id = PyVal.none) ∧
      (valid_uuid4 (pyStr (PyVal.str "12345678-1234-4123-8123-123456789012")) = false →
        j.record_id = PyVal.str "12345678-1234-4123-8123-123456789012" ∧
          j.record_uuid = PyVal.none) ∧
      (valid_uuid4 (pyStr (PyVal.int 42)) = true →
        j.related_record_uuid = PyVal.int 42 ∧ j.related_record_id = PyVal.none) ∧
      (valid_uuid4 (pyStr (PyVal.int 42)) = false →
        j.related_record_id = PyVal.int 42 ∧ j.related_record_uuid = PyVal.none) ∧
      ¬ (j.record_id = PyVal.none ∧ j.record_uuid = PyVal.none) ∧
      (j.record_id = PyVal.none ∨ j.record_uuid = PyVal.none) ∧
      ¬ (j.related_record_id = PyVal.none ∧ j.related_record_uuid = PyVal.none) ∧
      (j.related_record_id = PyVal.none ∨ j.related_record_uuid = PyVal.none) :=
  ⟨by decide, by decide,
   C2_pk_field_selection (PyVal.str "12345678-1234-4123-8123-123456789012")
     (PyVal.int 42) "rel" { relationships := ["rel"], joinRecords := [] }
     (by decide) (by decide)⟩

/-- C3: Every execution path of the orchestrator that reaches a
`validate_join` call raises `TypeError`: the call sites (handle_request.py
lines 117, 230, 236 and 238) pass keyword arguments
`origin_model_pk`/`related_model_pk`, which are not parameters of
`validate_join` (`record_uuid`, `related_record_uuid`, `relationship`), so
the previous_pk branch of `prepare_update_request` and every both-values-
present branch of `validate_relationship_data` end in `TypeError` and the
join check never executes. -/
theorem C3_call_sites_raise_type_error (h : Handler) (rp : RelParam)
    (resp_data : Dict) (db : DB)
    (hpk : truthy (pur_pk h) = true)
    (hprev : dictHasKey h.request_data "previous_pk" = true)
    (hrel : truthy (vrd_related_lookup rp resp_data) = true)
    (hor : truthy (vrd_origin_lookup rp resp_data) = true) :
    py_call_raises_type_error validate_join_param_names line117_call_kwargs = true ∧
    py_call_raises_type_error validate_join_param_names line230_call_kwargs = true ∧
    py_call_raises_type_error validate_join_param_names line236_call_kwargs = true ∧
    py_call_raises_type_error validate_join_param_names line238_call_kwargs = true ∧
    (prepare_update_request h).2 = UpdateResult.typeError ∧
    (prepare_update_request h).1.db.joinRecords.length ≤ h.db.joinRecords.length ∧
    validate_relationship_data resp_data rp db = (db, VRDResult.typeError) := by
  refine ⟨by decide, by decide, by decide, by decide, ?_, ?_, ?_⟩
  · simp [prepare_update_request, hpk, hprev]
  · simp [prepare_update_request, hpk, hprev]
    exact delete_join_record_length_le _ _ _
  · exact validate_relationship_data_typeError resp_data rp db hrel hor

/-- Witness for C3 at the PATCH-with-previous_pk handler state and the
list-valued relationship lookup. -/
theorem C3_call_sites_raise_type_error_witness :
    (truthy (pur_pk hPatch) = true ∧
     dictHasKey hPatch.request_data "previous_pk" = true ∧
     truthy (vrd_related_lookup rpForward respListFk) = true ∧
     truthy (vrd_origin_lookup rpForward respListFk) = true) ∧
    (py_call_raises_type_error validate_join_param_names line117_call_kwargs = true ∧
     py_call_raises_type_error validate_join_param_names line230_call_kwargs = true ∧
     py_call_raises_type_error validate_join_param_names line236_call_kwargs = true ∧
     py_call_raises_type_error validate_join_param_names line238_call_kwargs = true ∧
     (prepare_update_request hPatch).2 = UpdateResult.typeError ∧
     (prepare_update_request hPatch).1.db.joinRecords.length
        ≤ hPatch.db.joinRecords.length ∧
     validate_relationship_data respListFk rpForward
         { relationships := ["rel"], joinRecords := [] }
       = ({ relationships := ["rel"], joinRecords := [] }, VRDResult.typeError)) :=
  ⟨⟨by decide, by decide, by decide, by decide⟩,
   C3_call_sites_raise_type_error hPatch rpForward respListFk
     { relationships := ["rel"], joinRecords := [] }
     (by decide) (by decide) (by decide) (by decide)⟩

/-- C4 counterexample: on a PATCH with the join flag whose sub-object carries
its own pk (3) and previous_pk (2), with the old join (1, 2) in the store,
the run ends in `TypeError` — not in a forwarded request — and afterwards the
store holds no join at all: the old join is deleted but the claimed new join
linking the response pk (1) to the body pk (3) is never created. -/
theorem C4_counterexample :
    hPatch.db.joinRecords = [jrOneTwo] ∧
    (validate_request "rel" ["join"] hPatch).2 = RequestOutcome.typeError ∧
    (validate_request "rel" ["join"] hPatch).2 ≠ RequestOutcome.performed ∧
    (validate_request "rel" ["join"] hPatch).1.db.joinRecords = [] := by decide

/-- C4 as amended: on a PUT/PATCH with the join flag, for a sub-object whose
pk lookup is truthy and which carries previous_pk, the old join between the
primary response's pk and previous_pk is deleted (both directions, via
`delete_join_record`), but the subsequent `validate_join` call raises
`TypeError` (keyword mismatch), so no new join is created and the sub-object
update is never forwarded (`perform_request` is not reached). -/
theorem C4_amended_update_with_previous_pk (relationship : String)
    (query_params : List String) (h : Handler)
    (hm : h.method = "PUT" ∨ h.method = "PATCH")
    (hq : query_params.contains "join" = true)
    (hpk : truthy (pur_pk (sync_attrs h)) = true)
    (hprev : dictHasKey h.request_data "previous_pk" = true) :
    (validate_request relationship query_params h).2 = RequestOutcome.typeError ∧
    (validate_request relationship query_params h).1.db
      = delete_join_record (pur_res_pk (sync_attrs h))
          (dictGet h.request_data "previous_pk") h.db ∧
    (validate_request relationship query_params h).1.db.joinRecords.length
      ≤ h.db.joinRecords.length := by
  have hpost : (h.method == "POST") = false := by
    rcases hm with h1 | h1 <;> rw [h1] <;> decide
  have hpp : (h.method == "PUT" || h.method == "PATCH") = true := by
    rcases hm with h1 | h1 <;> rw [h1] <;> decide
  have hsync_prev : dictHasKey (sync_attrs h).request_data "previous_pk" = true := hprev
  have hpur := prepare_update_request_previous_pk (sync_attrs h) hpk hsync_prev
  have hvr : validate_request relationship query_params h
      = ({ sync_attrs h with
            method := (sync_attrs h).request_method,
            param := { (sync_attrs h).param with
                        method := (sync_attrs h).request_method,
                        pk := pur_pk (sync_attrs h) },
            db := delete_join_record (pur_res_pk (sync_attrs h))
                    (dictGet (sync_attrs h).request_data "previous_pk")
                    (sync_attrs h).db },
         RequestOutcome.typeError) := by
    simp only [validate_request, sync_attrs_method, hpost, Bool.false_and,
      Bool.false_eq_true, if_false, hpp, hq, Bool.and_self, if_true, hpur]
  rw [hvr]
  exact ⟨rfl, rfl, delete_join_record_length_le _ _ _⟩

/-- Witness for C4's amended statement at the PATCH-with-previous_pk handler
state. -/
theorem C4_amended_update_with_previous_pk_witness :
    (hPatch.method = "PUT" ∨ hPatch.method = "PATCH") ∧
    ((["join"] : List String).contains "join" = true) ∧
    (truthy (pur_pk (sync_attrs hPatch)) = true) ∧
    (dictHasKey hPatch.request_data "previous_pk" = true) ∧
    ((validate_request "rel" ["join"] hPatch).2 = RequestOutcome.typeError ∧
     (validate_request "rel" ["join"] hPatch).1.db
       = delete_join_record (pur_res_pk (sync_attrs hPatch))
           (dictGet hPatch.request_data "previous_pk") hPatch.db ∧
     (validate_request "rel" ["join"] hPatch).1.db.joinRecords.length
       ≤ hPatch.db.joinRecords.length) :=
  ⟨Or.inr (by decide), by decide, by decide, by decide,
   C4_amended_update_with_previous_pk "rel" ["join"] hPatch
     (Or.inr (by decide)) (by decide) (by decide) (by decide)⟩

/-- C5 counterexample: repeating the same POST-extend request does not leave
exactly one JoinRecord — the insert is done by `join_record` with no
existence check, so the second run writes an identical duplicate row. -/
theorem C5_counterexample :
    (validate_request "rel" ["extend"] hExtend).2 = RequestOutcome.extendJoin ∧
    (validate_request "rel" ["extend"] (validate_request "rel" ["extend"] hExtend).1).2
      = RequestOutcome.extendJoin ∧
    (validate_request "rel" ["extend"]
        (validate_request "rel" ["extend"] hExtend).1).1.db.joinRecords
      = [{ relationship := some "rel", record_id := PyVal.int 1, record_uuid := PyVal.none,
           related_record_id := PyVal.int 2, related_record_uuid := PyVal.none,
           organization_id := PyVal.none },
         { relationship := some "rel", record_id := PyVal.int 1, record_uuid := PyVal.none,
           related_record_id := PyVal.int 2, related_record_uuid := PyVal.none,
           organization_id := PyVal.none }] := by decide

/-- C5 as amended: on a POST with the extend flag, the orchestrator takes
origin_pk from `resp_data[origin_model_pk_name]` and related_pk from the
inbound body at `related_model_pk_name`, but writes the join through
`join_record` directly — no existence check — so each repetition appends one
more JoinRecord. -/
theorem C5_amended_extend_inserts_unconditionally (relationship : String)
    (query_params : List String) (h : Handler) (origin_model_pk related_model_pk : PyVal)
    (hm : h.method = "POST") (hq : query_params.contains "extend" = true)
    (h1 : dictLookup h.resp_data h.param.origin_model_pk_name = some origin_model_pk)
    (h2 : dictLookup h.request_data h.param.related_model_pk_name = some related_model_pk) :
    validate_request relationship query_params h
      = ({ sync_attrs h with
            db := join_record relationship origin_model_pk related_model_pk Option.none h.db },
         RequestOutcome.extendJoin) ∧
    (validate_request relationship query_params h).1.db.joinRecords.length
      = h.db.joinRecords.length + 1 ∧
    (validate_request relationship query_params h).1.db.joinRecords.getLast?
      = some (createdJoinRow (validate_primary_key origin_model_pk related_model_pk)
          (relationship_filter_first h.db relationship)) := by
  have hm' : (h.method == "POST") = true := by rw [hm]; decide
  have hvr : validate_request relationship query_params h
      = ({ sync_attrs h with
            db := join_record relationship origin_model_pk related_model_pk Option.none h.db },
         RequestOutcome.extendJoin) := by
    simp only [validate_request, sync_attrs_method, hm', hq, Bool.and_self, if_true,
      sync_attrs_resp_data, sync_attrs_origin_name, sync_attrs_related_name,
      sync_attrs_request_data, sync_attrs_db, h1, h2]
  rw [hvr]
  refine ⟨rfl, ?_, ?_⟩
  · simp [join_record]
  · simp only [join_record]
    exact List.getLast?_concat _

/-- Witness for C5's amended statement at the POST-extend handler state. -/
theorem C5_amended_extend_inserts_unconditionally_witness :
    (hExtend.method = "POST") ∧
    ((["extend"] : List String).contains "extend" = true) ∧
    (dictLookup hExtend.resp_data hExtend.param.origin_model_pk_name = some (PyVal.int 1)) ∧
    (dictLookup hExtend.request_data hExtend.param.related_model_pk_name = some (PyVal.int 2)) ∧
    (validate_request "rel" ["extend"] hExtend
      = ({ sync_attrs hExtend with
            db := join_record "rel" (PyVal.int 1) (PyVal.int 2) Option.none hExtend.db },
         RequestOutcome.extendJoin) ∧
     (validate_request "rel" ["extend"] hExtend).1.db.joinRecords.length
       = hExtend.db.joinRecords.length + 1 ∧
     (validate_request "rel" ["extend"] hExtend).1.db.joinRecords.getLast?
       = some (createdJoinRow (validate_primary_key (PyVal.int 1) (PyVal.int 2))
           (relationship_filter_first hExtend.db "rel"))) :=
  ⟨by decide, by decide, by decide, by decide,
   C5_amended_extend_inserts_unconditionally "rel" ["extend"] hExtend
     (PyVal.int 1) (PyVal.int 2) (by decide) (by decide) (by decide) (by decide)⟩

/-- C6 counterexample: with an inbound organization of `org-B`, the existence
check inside `validate_join` still matches a join record owned by `org-A`
(neither the request's organization nor null): the claimed organization
scoping would leave the visible set empty, yet the code's read finds the row
and `validate_join` therefore skips the insert. -/
theorem C6_counterexample :
    jrOrgA.organization_id = PyVal.str "org-A" ∧
    PyVal.str "org-A" ≠ PyVal.str "org-B" ∧
    join_filter_instance (validate_primary_key (PyVal.int 1) (PyVal.int 2)) "rel" dbOrgA
      = [jrOrgA] ∧
    spec_org_scoped_filter (PyVal.str "org-B")
        (join_filter_instance (validate_primary_key (PyVal.int 1) (PyVal.int 2)) "rel" dbOrgA)
      = [] ∧
    validate_join (PyVal.int 1) (PyVal.int 2) "rel" dbOrgA = dbOrgA := by decide

/-- The existence-check predicate never reads the organization column:
reassigning every row's organization leaves the filter length unchanged. -/
theorem join_filter_org_invariant (d : PkDict) (rel : String) (f : JoinRecord → PyVal) :
    ∀ l : List JoinRecord,
      (List.filter (fun j => pkDictMatches d j && j.relationship == some rel)
        (l.map fun r => { r with organization_id := f r })).length
      = (List.filter (fun j => pkDictMatches d j && j.relationship == some rel) l).length := by
  intro l
  induction l with
  | nil => rfl
  | cons a t ih =>
    simp only [List.map_cons, List.filter_cons]
    have hpred : (pkDictMatches d { a with organization_id := f a }
          && ({ a with organization_id := f a } : JoinRecord).relationship == some rel)
        = (pkDictMatches d a && a.relationship == some rel) := rfl
    rw [hpred]
    cases hp : (pkDictMatches d a && a.relationship == some rel) <;> simp [ih]

/-- C6 as amended: the join reads performed by `validate_join` do not filter
by organization at all — membership in the existence check is exactly (pk
dict match ∧ relationship key match), with no organization condition, and the
outcome is invariant under arbitrary reassignment of every record's
organization. -/
theorem C6_amended_join_reads_ignore_organization (record_uuid related_record_uuid : PyVal)
    (relationship : String) (db : DB) (f : JoinRecord → PyVal) (j : JoinRecord) :
    (j ∈ join_filter_instance (validate_primary_key record_uuid related_record_uuid)
          relationship db
      ↔ j ∈ db.joinRecords
          ∧ pkDictMatches (validate_primary_key record_uuid related_record_uuid) j = true
          ∧ j.relationship = some relationship) ∧
    (join_filter_instance (validate_primary_key record_uuid related_record_uuid) relationship
        { db with joinRecords := db.joinRecords.map fun r => { r with organization_id := f r } }).length
      = (join_filter_instance (validate_primary_key record_uuid related_record_uuid)
          relationship db).length := by
  constructor
  · simp [join_filter_instance, List.mem_filter, and_assoc]
  · exact join_filter_org_invariant _ relationship f db.joinRecords

/-- C7 counterexample: `delete_join_record` with pk 1 and no previous_pk
deletes a record none of whose four pk columns equals 1 — `record_id` is 11,
which merely contains the digit 1 as a substring (`icontains`). -/
theorem C7_counterexample :
    (jrEleven.record_id ≠ PyVal.int 1 ∧ jrEleven.record_uuid ≠ PyVal.int 1 ∧
     jrEleven.related_record_id ≠ PyVal.int 1 ∧ jrEleven.related_record_uuid ≠ PyVal.int 1) ∧
    (delete_join_record (PyVal.int 1) PyVal.none dbEleven).joinRecords = [] := by decide

/-- C7 as amended: with no previous_pk and a truthy pk,
`delete_join_record` deletes exactly the join records for which `str(pk)`
occurs as a case-insensitive substring (`icontains`) of one of the four
stringified pk columns (a NULL column never matches).  Every record with a
column equal to pk is among those deleted, but so are records that merely
contain pk as a substring. -/
theorem C7_amended_delete_touching_substring (pk : PyVal) (db : DB) (j : JoinRecord)
    (hpk : truthy pk = true) (hnn : pk ≠ PyVal.none) (hj : j.record_id = pk) :
    (delete_join_record pk PyVal.none db).joinRecords
      = db.joinRecords.filter (fun r => ¬ joinTouchContains pk r) ∧
    joinTouchContains pk j = true := by
  constructor
  · have h0 : truthy PyVal.none = false := rfl
    simp [delete_join_record, hpk, h0]
  · have hic : icontains j.record_id pk = true := by
      rw [hj]
      cases pk with
      | none => exact absurd rfl hnn
      | str s => simp [icontains, subListCI_self]
      | int n => simp [icontains, subListCI_self]
      | bool b => simp [icontains, subListCI_self]
      | list xs => simp [icontains, subListCI_self]
    simp [joinTouchContains, hic]

/-- Witness for C7's amended statement: pk 11 deletes `jrEleven` from
`dbEleven`, and a record whose `record_id` equals 11 matches the substring
predicate. -/
theorem C7_amended_delete_touching_substring_witness :
    (truthy (PyVal.int 11) = true) ∧
    (PyVal.int 11 ≠ PyVal.none) ∧
    (jrEleven.record_id = PyVal.int 11) ∧
    ((delete_join_record (PyVal.int 11) PyVal.none dbEleven).joinRecords
       = dbEleven.joinRecords.filter (fun r => ¬ joinTouchContains (PyVal.int 11) r) ∧
     joinTouchContains (PyVal.int 11) jrEleven = true) :=
  ⟨by decide, by decide, by decide,
   C7_amended_delete_touching_substring (PyVal.int 11) dbEleven jrEleven
     (by decide) (by decide) (by decide)⟩

/-- C8 counterexample: with a scalar origin lookup and a one-element list as
related lookup, `validate_relationship_data` validates zero joins — not one
per element — because its first `validate_join` call raises `TypeError` and
the loop never completes an iteration (the store stays empty). -/
theorem C8_counterexample :
    vrd_origin_lookup rpForward respListFk = PyVal.int 1 ∧
    vrd_related_lookup rpForward respListFk = PyVal.list [PyVal.int 2] ∧
    validate_relationship_data respListFk rpForward
        { relationships := ["rel"], joinRecords := [] }
      = ({ relationships := ["rel"], joinRecords := [] }, VRDResult.typeError) ∧
    (validate_relationship_data respListFk rpForward
        { relationships := ["rel"], joinRecords := [] }).1.joinRecords.length = 0 := by decide

/-- C8 as amended: the dispatch of `validate_relationship_data` pairs the
scalar side with each list element — one `(origin, related)` argument pair
per element, no Cartesian expansion — and one pair when both values are
scalars; but the execution of every such call raises `TypeError` (keyword
mismatch with `validate_join`), so no join is actually validated and the
database is returned untouched. -/
theorem C8_amended_pairing_without_cartesian (origin related : PyVal)
    (xs ys : List PyVal) (rp : RelParam) (resp_data : Dict) (db : DB)
    (ho : truthy origin = true) (hol : isList origin = false)
    (hr : truthy related = true) (hrl : isList related = false)
    (hxs : xs ≠ []) (hys : ys ≠ [])
    (hL1 : truthy (vrd_related_lookup rp resp_data) = true)
    (hL2 : truthy (vrd_origin_lookup rp resp_data) = true) :
    validate_relationship_join_pairs origin (PyVal.list xs)
      = xs.map (fun u => (origin, u)) ∧
    validate_relationship_join_pairs (PyVal.list ys) related
      = ys.map (fun u => (u, related)) ∧
    validate_relationship_join_pairs origin related = [(origin, related)] ∧
    (validate_relationship_join_pairs origin (PyVal.list xs)).length = xs.length ∧
    validate_relationship_data resp_data rp db = (db, VRDResult.typeError) := by
  have hxs' : truthy (PyVal.list xs) = true := by
    cases xs with
    | nil => exact absurd rfl hxs
    | cons a t => rfl
  have hys' : truthy (PyVal.list ys) = true := by
    cases ys with
    | nil => exact absurd rfl hys
    | cons a t => rfl
  refine ⟨?_, ?_, ?_, ?_, validate_relationship_data_typeError resp_data rp db hL1 hL2⟩
  · simp [validate_relationship_join_pairs, hxs', ho]
  · cases related <;> simp_all [validate_relationship_join_pairs, isList]
  · cases related <;> cases origin <;>
      simp_all [validate_relationship_join_pairs, isList]
  · simp [validate_relationship_join_pairs, hxs', ho]

/-- Witness for C8's amended statement: origin 1 with related list `[2]`,
related 7 with origin list `[5, 6]`, and the scalar pair `(1, 7)`. -/
theorem C8_amended_pairing_without_cartesian_witness :
    (truthy (PyVal.int 1) = true ∧ isList (PyVal.int 1) = false ∧
     truthy (PyVal.int 7) = true ∧ isList (PyVal.int 7) = false ∧
     ([PyVal.int 2] : List PyVal) ≠ [] ∧ ([PyVal.int 5, PyVal.int 6] : List PyVal) ≠ [] ∧
     truthy (vrd_related_lookup rpForward respListFk) = true ∧
     truthy (vrd_origin_lookup rpForward respListFk) = true) ∧
    (validate_relationship_join_pairs (PyVal.int 1) (PyVal.list [PyVal.int 2])
       = [PyVal.int 2].map (fun u => (PyVal.int 1, u)) ∧
     validate_relationship_join_pairs (PyVal.list [PyVal.int 5, PyVal.int 6]) (PyVal.int 7)
       = [PyVal.int 5, PyVal.int 6].map (fun u => (u, PyVal.int 7)) ∧
     validate_relationship_join_pairs (PyVal.int 1) (PyVal.int 7)
       = [(PyVal.int 1, PyVal.int 7)] ∧
     (validate_relationship_join_pairs (PyVal.int 1) (PyVal.list [PyVal.int 2])).length
       = ([PyVal.int 2] : List PyVal).length ∧
     validate_relationship_data respListFk rpForward
         { relationships := ["rel"], joinRecords := [] }
       = ({ relationships := ["rel"], joinRecords := [] }, VRDResult.typeError)) :=
  ⟨⟨by decide, by decide, by decide, by decide, by decide, by decide, by decide, by decide⟩,
   C8_amended_pairing_without_cartesian (PyVal.int 1) (PyVal.int 7)
     [PyVal.int 2] [PyVal.int 5, PyVal.int 6] rpForward respListFk
     { relationships := ["rel"], joinRecords := [] }
     (by decide) (by decide) (by decide) (by decide) (by decide) (by decide)
     (by decide) (by decide)⟩

/-- C9: Every JoinRecord created through `join_record` — and hence through
`validate_join` and the POST-extend path — is persisted with
`organization_id` null, regardless of the organization UUID in the inbound
request's session context. -/
theorem C9_created_joins_have_null_organization (relationship : String)
    (origin_model_pk related_model_pk ru rru : PyVal) (pk_dict : Option PkDict)
    (db : DB) (org : PyVal) :
    ((join_record relationship origin_model_pk related_model_pk pk_dict db).joinRecords.getLast?.map
        fun j => j.organization_id) = some PyVal.none ∧
    (join_record relationship origin_model_pk related_model_pk pk_dict db).joinRecords.length
      = db.joinRecords.length + 1 ∧
    (validate_join ru rru relationship db = db ∨
      ((validate_join ru rru relationship db).joinRecords.getLast?.map
        fun j => j.organization_id) = some PyVal.none) ∧
    ((validate_request "rel" ["extend"] { hExtend with session_org := org }).1.db.joinRecords.map
        fun j => j.organization_id) = [PyVal.none] := by
  refine ⟨?_, ?_, ?_, ?_⟩
  · simp [join_record, List.getLast?_concat, createdJoinRow]
  · simp [join_record]
  · by_cases hE : join_filter_instance (validate_primary_key ru rru) relationship db = []
    · right
      rw [validate_join_not_found ru rru relationship db hE]
      simp [List.getLast?_concat, createdJoinRow]
    · exact Or.inl (validate_join_found ru rru relationship db hE)
  · rfl

/-- C10: `retrieve_relationship_data` mutates the inbound request in place —
after a sub-object is processed, `request.data` holds exactly the
sub-object's fields (independently of the original body), any key of the
original body absent from the sub-object is gone, and the request method is
reset to the original inbound method. -/
theorem C10_retrieve_step_overwrites_request (request_method : String) (inst : Dict)
    (req req2 : PyRequest) (k : String) (hk : dictHasKey inst k = false) :
    (retrieve_step request_method inst req).data
      = (retrieve_step request_method inst req2).data ∧
    dictHasKey (retrieve_step request_method inst req).data k = false ∧
    (retrieve_step request_method inst req).method = request_method := by
  refine ⟨rfl, ?_, rfl⟩
  cases hB : dictHasKey (retrieve_step request_method inst req).data k
  · rfl
  · exfalso
    rcases dictHasKey_dictUpdate inst k [] hB with h1 | h1
    · simp [dictHasKey, dictLookup] at h1
    · rw [hk] at h1
      exact Bool.false_ne_true h1

/-- Witness for C10: processing the sub-object `{"team": "T"}` on a request
whose body was `{"name": "X"}` erases the key `name`. -/
theorem C10_retrieve_step_overwrites_request_witness :
    (dictHasKey [("team", PyVal.str "T")] "name" = false) ∧
    ((retrieve_step "PATCH" [("team", PyVal.str "T")]
        { method := "POST", data := [("name", PyVal.str "X")] }).data
      = (retrieve_step "PATCH" [("team", PyVal.str "T")]
          { method := "POST", data := [] }).data ∧
    dictHasKey (retrieve_step "PATCH" [("team", PyVal.str "T")]
        { method := "POST", data := [("name", PyVal.str "X")] }).data "name" = false ∧
    (retrieve_step "PATCH" [("team", PyVal.str "T")]
        { method := "POST", data := [("name", PyVal.str "X")] }).method = "PATCH") :=
  ⟨by decide,
   C10_retrieve_step_overwrites_request "PATCH" [("team", PyVal.str "T")]
     { method := "POST", data := [("name", PyVal.str "X")] }
     { method := "POST", data := [] } "name" (by decide)⟩
